import Mathlib

/-!
Verification of the O-CLOUD O2 monitoring core: a shallow embedding of
`alarm_monitor.py`, `notification_manager.py`, `report_generator.py` and the
alarm-related operations of `ocloud_db.py`, with theorems settling the
frozen claims about threshold evaluation, the alarm registry, notification
dispatch and performance-report aggregation.

Modelling conventions:
- Python dicts become association lists with first-match lookup; inserting
  removes any previous binding for the key, mirroring dict assignment.
- Timestamps are integers (seconds); `datetime.now` becomes an explicit
  `now` argument threaded through the operations.
- `uuid.uuid4()` becomes a fresh-id counter `next_id` (uuid collisions are
  assumed impossible, which the counter makes literal).
- Metric values are rationals (Python floats carry exact decimal configs
  here; no float rounding is involved in any claim).
- The alarms table schema file (`ocloud_schema.sql`) is not part of the
  sources; the row model below keeps both the `alarm_cleared_time` column
  written by `OCloudDB.clear_alarm` and the truthiness of the
  `alarm_cleared` dict key read by the monitor. `create_alarm` leaves both
  unset and `clear_alarm` only sets `alarm_cleared_time`, exactly as the
  Python database layer does, so the `alarm_cleared` flag stays false
  under every operation the monitor performs.
-/

namespace O2

/-- Association-list lookup with first-match semantics (Python dict get). -/
def alist_lookup {α β : Type} [DecidableEq α] (k : α) : List (α × β) → Option β
  | [] => none
  | (k', v) :: rest => if k = k' then some v else alist_lookup k rest

/-- Python `d.get(k, default)`. -/
def alist_lookupD {α β : Type} [DecidableEq α] (l : List (α × β)) (k : α) (d : β) : β :=
  (alist_lookup k l).getD d

/-- Remove every binding for `k` (Python `del d[k]`, on a one-binding-per-key dict). -/
def alist_erase {α β : Type} [DecidableEq α] (k : α) : List (α × β) → List (α × β)
  | [] => []
  | e :: rest => if e.1 = k then alist_erase k rest else e :: alist_erase k rest

/-- Python `d[k] = v`: bind `k` to `v`, dropping any previous binding. -/
def alist_insert {α β : Type} [DecidableEq α] (k : α) (v : β) (l : List (α × β)) :
    List (α × β) :=
  (k, v) :: alist_erase k l

theorem alist_lookup_erase_self {α β : Type} [DecidableEq α] (k : α) (l : List (α × β)) :
    alist_lookup k (alist_erase k l) = none := by
  induction l with
  | nil => rfl
  | cons e rest ih =>
    by_cases h : e.1 = k
    · simpa [alist_erase, h] using ih
    · have h' : k ≠ e.1 := fun hc => h hc.symm
      simpa [alist_erase, h, alist_lookup, h'] using ih

theorem alist_lookup_erase_of_ne {α β : Type} [DecidableEq α] {k k' : α} (l : List (α × β))
    (h : k' ≠ k) : alist_lookup k' (alist_erase k l) = alist_lookup k' l := by
  induction l with
  | nil => rfl
  | cons e rest ih =>
    by_cases he : e.1 = k
    · have h' : k' ≠ e.1 := fun hc => h (hc.trans he)
      simp [alist_erase, he, alist_lookup, h, h', ih]
    · by_cases he' : k' = e.1
      · simp [alist_erase, he, alist_lookup, he']
      · simp [alist_erase, he, alist_lookup, he', ih]

theorem alist_lookup_insert_self {α β : Type} [DecidableEq α] (k : α) (v : β)
    (l : List (α × β)) : alist_lookup k (alist_insert k v l) = some v := by
  simp [alist_insert, alist_lookup]

theorem alist_lookup_insert_of_ne {α β : Type} [DecidableEq α] {k k' : α} (v : β)
    (l : List (α × β)) (h : k' ≠ k) :
    alist_lookup k' (alist_insert k v l) = alist_lookup k' l := by
  simp [alist_insert, alist_lookup, h, alist_lookup_erase_of_ne l h]

theorem alist_lookup_append {α β : Type} [DecidableEq α] (k : α) (l l' : List (α × β)) :
    alist_lookup k (l ++ l') =
      (match alist_lookup k l with
       | some v => some v
       | none => alist_lookup k l') := by
  induction l with
  | nil => simp [alist_lookup]
  | cons e rest ih =>
    by_cases h : k = e.1
    · simp [alist_lookup, h]
    · simp [alist_lookup, h, ih]

/-! ### Alarm data model (`ocloud_db.py` alarms table rows) -/

/-- One row of the alarms table, as the monitor sees it through `dict(row)`.
`alarm_cleared` is the truthiness of `row.get('alarm_cleared')`: false at
creation and untouched by `OCloudDB.clear_alarm`, which writes only
`alarm_cleared_time` and `alarm_changed_time`. -/
structure AlarmRecord where
  resource_id : String
  perceived_severity : String
  probable_cause : String
  alarm_type : String
  is_root_cause : Bool
  alarm_raised_time : Int
  alarm_changed_time : Option Int
  alarm_cleared_time : Option Int
  alarm_cleared : Bool
deriving DecidableEq, Repr

/-- A stored alarm together with its id and, as ghost metadata for stating
the deduplication invariant, the `(resource_id, metric_type)` key that
`_create_or_update_alarm` was called with when it created the row. -/
structure StoredAlarm where
  alarm_id : Nat
  key : String × String
  record : AlarmRecord
deriving DecidableEq, Repr

/-- Queue entries produced by `notification_manager.notify_alarm_*`. -/
inductive NotificationEvent where
  | alarmRaised (alarm_id : Nat)
  | alarmChanged (alarm_id : Nat)
  | alarmCleared (alarm_id : Nat)
deriving DecidableEq, Repr

/-- The state touched by `AlarmMonitor`: the alarms table, the in-memory
`active_alarms` registry, the notification queue, and the fresh-id counter
standing in for `uuid.uuid4()`. -/
structure MonitorState where
  alarms : List StoredAlarm
  active_alarms : List ((String × String) × Nat)
  queue : List NotificationEvent
  next_id : Nat
deriving DecidableEq, Repr

def initial_state : MonitorState := ⟨[], [], [], 0⟩

/-- `OCloudDB.get_alarm`: first row whose alarm_id matches. -/
def store_get (aid : Nat) : List StoredAlarm → Option StoredAlarm
  | [] => none
  | e :: rest => if e.alarm_id = aid then some e else store_get aid rest

def db_get_alarm (s : MonitorState) (aid : Nat) : Option AlarmRecord :=
  (store_get aid s.alarms).map (·.record)

/-- Apply `f` to the record of every row with the given alarm_id
(SQL `UPDATE ... WHERE alarm_id = ?`). -/
def store_update (aid : Nat) (f : AlarmRecord → AlarmRecord) (l : List StoredAlarm) :
    List StoredAlarm :=
  l.map (fun e => if e.alarm_id = aid then { e with record := f e.record } else e)

/-- The freshly inserted row of `OCloudDB.create_alarm`: raised now, not
acknowledged, nothing cleared. -/
def new_row (aid : Nat) (key : String × String) (severity cause alarm_type : String)
    (now : Int) : StoredAlarm :=
  ⟨aid, key, ⟨key.1, severity, cause, alarm_type, false, now, none, none, false⟩⟩

/-- `OCloudDB.create_alarm`: INSERT a row with raised time now, nothing cleared. -/
def db_create_alarm (s : MonitorState) (aid : Nat) (key : String × String)
    (severity cause alarm_type : String) (now : Int) : MonitorState :=
  { s with alarms := s.alarms ++ [new_row aid key severity cause alarm_type now] }

/-- Field update performed by `update_alarm(id, perceived_severity=...)`. -/
def sev_update (severity : String) (now : Int) (a : AlarmRecord) : AlarmRecord :=
  { a with perceived_severity := severity, alarm_changed_time := some now }

/-- Field update performed by `clear_alarm`. -/
def clear_update (now : Int) (a : AlarmRecord) : AlarmRecord :=
  { a with alarm_cleared_time := some now, alarm_changed_time := some now }

/-- `OCloudDB.update_alarm(id, perceived_severity=...)`: sets the severity and
always refreshes `alarm_changed_time`. -/
def db_update_alarm_severity (s : MonitorState) (aid : Nat) (severity : String)
    (now : Int) : MonitorState :=
  { s with alarms := store_update aid (sev_update severity now) s.alarms }

/-- `OCloudDB.clear_alarm`: sets `alarm_cleared_time` and `alarm_changed_time`
(and nothing else; in particular not the `alarm_cleared` dict key). -/
def db_clear_alarm (s : MonitorState) (aid : Nat) (now : Int) : MonitorState :=
  { s with alarms := store_update aid (clear_update now) s.alarms }

/-- `alarm_config.SEND_ALARM_NOTIFICATIONS`. -/
def SEND_ALARM_NOTIFICATIONS : Bool := true

/-- `alarm_config.ALARM_TYPE_MAP`. -/
def ALARM_TYPE_MAP : List (String × String) :=
  [("cpu_usage", "ProcessingError"),
   ("memory_usage", "MemoryError"),
   ("disk_usage", "StorageCapacityProblem"),
   ("gnb_process_cpu", "ProcessingError"),
   ("gnb_process_memory", "MemoryError"),
   ("process_not_found", "CommunicationsAlarm"),
   ("resource_state_change", "EquipmentAlarm")]

/-- `AlarmMonitor._create_or_update_alarm`. Returns the updated state and the
alarm id the Python function returns. The `_value` argument is accepted and
ignored exactly as in the source. -/
def create_or_update_alarm (rid mtype : String) (_value : Option ℚ)
    (severity probable_cause : String) (now : Int) (s : MonitorState) :
    MonitorState × Nat :=
  let alarm_key := (rid, mtype)
  let fresh : MonitorState × Nat :=
    let aid := s.next_id
    let alarm_type := alist_lookupD ALARM_TYPE_MAP mtype "Other"
    let s1 := db_create_alarm s aid alarm_key severity probable_cause alarm_type now
    let s2 := { s1 with
      active_alarms := alist_insert alarm_key aid s1.active_alarms,
      queue := if SEND_ALARM_NOTIFICATIONS then s1.queue ++ [NotificationEvent.alarmRaised aid] else s1.queue,
      next_id := s.next_id + 1 }
    (s2, aid)
  match alist_lookup alarm_key s.active_alarms with
  | some existing_id =>
    match db_get_alarm s existing_id with
    | some existing =>
      if existing.alarm_cleared = false then
        if existing.perceived_severity ≠ severity then
          let s1 := db_update_alarm_severity s existing_id severity now
          ({ s1 with queue := if SEND_ALARM_NOTIFICATIONS
              then s1.queue ++ [NotificationEvent.alarmChanged existing_id] else s1.queue }, existing_id)
        else (s, existing_id)
      else fresh
    | none => fresh
  | none => fresh

/-- `AlarmMonitor._clear_alarm_if_exists`. -/
def clear_alarm_if_exists (rid mtype : String) (now : Int) (s : MonitorState) :
    MonitorState :=
  match alist_lookup (rid, mtype) s.active_alarms with
  | none => s
  | some aid =>
    let s1 :=
      match db_get_alarm s aid with
      | some a =>
        if a.alarm_cleared = false then
          let s2 := db_clear_alarm s aid now
          { s2 with queue := if SEND_ALARM_NOTIFICATIONS
              then s2.queue ++ [NotificationEvent.alarmCleared aid] else s2.queue }
        else s
      | none => s
    { s1 with active_alarms := alist_erase (rid, mtype) s1.active_alarms }

/-- `PROBABLE_CAUSE_TEMPLATES.get(metric_type, "Threshold exceeded").format(...)`.
Numeric rendering of the rationals abstracts the Python `{value:.1f}` format. -/
def format_cause (metric_type : String) (value threshold : ℚ) : String :=
  if metric_type = "cpu_usage" then
    "System CPU usage " ++ toString value ++ "% exceeds " ++ toString threshold ++ "% threshold"
  else if metric_type = "memory_usage" then
    "System memory usage " ++ toString value ++ "% exceeds " ++ toString threshold ++ "% threshold"
  else if metric_type = "disk_usage" then
    "Disk usage " ++ toString value ++ "% exceeds " ++ toString threshold ++ "% threshold"
  else if metric_type = "gnb_process_cpu" then
    "gNB process CPU usage " ++ toString value ++ "% exceeds " ++ toString threshold ++ "% threshold"
  else if metric_type = "gnb_process_memory" then
    "gNB process memory usage " ++ toString value ++ "% exceeds " ++ toString threshold ++ "% threshold"
  else if metric_type = "process_not_found" then
    "gNB process not found or stopped"
  else if metric_type = "resource_state_change" then
    "Resource operational state changed to \x7bstate\x7d"
  else "Threshold exceeded"

/-- The severity chain of `AlarmMonitor._check_threshold`: highest first,
with the defaults 100 / 90 / 80 used for individually missing bounds.
Returns the severity string and the matched threshold name. -/
def threshold_severity (thresholds : List (String × ℚ)) (value : ℚ) :
    Option (String × String) :=
  if value ≥ alist_lookupD thresholds "critical" 100 then some ("CRITICAL", "critical")
  else if value ≥ alist_lookupD thresholds "major" 90 then some ("MAJOR", "major")
  else if value ≥ alist_lookupD thresholds "minor" 80 then some ("MINOR", "minor")
  else none

/-- `AlarmMonitor._check_threshold`. -/
def check_threshold (rid mtype : String) (value : ℚ) (thresholds : List (String × ℚ))
    (now : Int) (s : MonitorState) : MonitorState :=
  if thresholds = [] then s
  else
    match threshold_severity thresholds value with
    | some (severity, threshold_name) =>
      (create_or_update_alarm rid mtype (some value) severity
        (format_cause mtype value (alist_lookupD thresholds threshold_name value)) now s).1
    | none =>
      if value < alist_lookupD thresholds "clear" 70 then
        clear_alarm_if_exists rid mtype now s
      else s

/-- States reachable from the empty registry through the monitor operations
alone — alarms created and cleared only through `create_or_update_alarm`
and `clear_alarm_if_exists` (`check_threshold` only composes these). -/
inductive Reachable : MonitorState → Prop where
  | init : Reachable initial_state
  | create (rid mtype : String) (v : Option ℚ) (severity cause : String) (now : Int)
      {s : MonitorState} : Reachable s →
      Reachable (create_or_update_alarm rid mtype v severity cause now s).1
  | clear (rid mtype : String) (now : Int) {s : MonitorState} : Reachable s →
      Reachable (clear_alarm_if_exists rid mtype now s)

/-! ### Store and registry lemmas -/

theorem alist_erase_of_lookup_none {α β : Type} [DecidableEq α] {k : α} {l : List (α × β)}
    (h : alist_lookup k l = none) : alist_erase k l = l := by
  induction l with
  | nil => rfl
  | cons e rest ih =>
    by_cases he : k = e.1
    · simp [alist_lookup, he] at h
    · have he' : e.1 ≠ k := fun hc => he hc.symm
      simp [alist_lookup, he] at h
      simp [alist_erase, he', ih h]

theorem store_get_some {aid : Nat} {l : List StoredAlarm} {e : StoredAlarm}
    (h : store_get aid l = some e) : e ∈ l ∧ e.alarm_id = aid := by
  induction l with
  | nil => cases h
  | cons x rest ih =>
    by_cases hx : x.alarm_id = aid
    · simp [store_get, hx] at h
      exact ⟨by simp [← h], by rw [← h]; exact hx⟩
    · simp [store_get, hx] at h
      rcases ih h with ⟨hm, hid⟩
      exact ⟨List.mem_cons_of_mem _ hm, hid⟩

/-- Row ids are pairwise distinct (what unique alarm ids give the table). -/
def distinct_ids (l : List StoredAlarm) : Prop :=
  List.Pairwise (fun a b => a.alarm_id ≠ b.alarm_id) l

theorem store_get_of_mem {l : List StoredAlarm} (hpw : distinct_ids l) {e : StoredAlarm}
    (he : e ∈ l) : store_get e.alarm_id l = some e := by
  induction l with
  | nil => cases he
  | cons x rest ih =>
    rcases List.mem_cons.mp he with rfl | hm
    · simp [store_get]
    · have hne : x.alarm_id ≠ e.alarm_id := (List.pairwise_cons.mp hpw).1 e hm
      simp [store_get, hne, ih (List.pairwise_cons.mp hpw).2 hm]

theorem distinct_ids_eq_of_mem {l : List StoredAlarm} (h : distinct_ids l)
    {e₁ e₂ : StoredAlarm} (h₁ : e₁ ∈ l) (h₂ : e₂ ∈ l)
    (hid : e₁.alarm_id = e₂.alarm_id) : e₁ = e₂ := by
  induction l with
  | nil => cases h₁
  | cons x rest ih =>
    rcases List.pairwise_cons.mp h with ⟨hx, hrest⟩
    rcases List.mem_cons.mp h₁ with rfl | m₁ <;> rcases List.mem_cons.mp h₂ with rfl | m₂
    · rfl
    · exact absurd hid (hx e₂ m₂)
    · exact absurd hid.symm (hx e₁ m₁)
    · exact ih hrest m₁ m₂

theorem store_get_update (aid : Nat) (f : AlarmRecord → AlarmRecord)
    (l : List StoredAlarm) :
    store_get aid (store_update aid f l) =
      (store_get aid l).map (fun e => { e with record := f e.record }) := by
  induction l with
  | nil => rfl
  | cons x rest ih =>
    by_cases hx : x.alarm_id = aid
    · simp [store_update, store_get, hx]
    · simp [store_update, store_get, hx] at ih ⊢
      exact ih

theorem length_le_one_of_pairwise_not {α : Type} {R : α → α → Prop} {l : List α}
    (hp : List.Pairwise R l) (hn : ∀ a ∈ l, ∀ b ∈ l, ¬ R a b) : l.length ≤ 1 := by
  match l with
  | [] => simp
  | [a] => simp
  | a :: b :: t =>
    exact absurd ((List.pairwise_cons.mp hp).1 b (by simp))
      (hn a (by simp) b (by simp))

/-! ### Branch-unfolding lemmas for the monitor operations -/

theorem create_of_not_registered {rid mtype : String} {v : Option ℚ}
    {severity cause : String} {now : Int} {s : MonitorState}
    (h : alist_lookup (rid, mtype) s.active_alarms = none) :
    create_or_update_alarm rid mtype v severity cause now s =
      ({ alarms := s.alarms ++
           [new_row s.next_id (rid, mtype) severity cause
              (alist_lookupD ALARM_TYPE_MAP mtype "Other") now],
         active_alarms := alist_insert (rid, mtype) s.next_id s.active_alarms,
         queue := s.queue ++ [NotificationEvent.alarmRaised s.next_id],
         next_id := s.next_id + 1 }, s.next_id) := by
  simp [create_or_update_alarm, h, db_create_alarm, SEND_ALARM_NOTIFICATIONS]

theorem create_of_open_same {rid mtype : String} {v : Option ℚ}
    {severity cause : String} {now : Int} {s : MonitorState} {aid : Nat} {a : AlarmRecord}
    (hreg : alist_lookup (rid, mtype) s.active_alarms = some aid)
    (hget : db_get_alarm s aid = some a) (hfl : a.alarm_cleared = false)
    (hsev : a.perceived_severity = severity) :
    create_or_update_alarm rid mtype v severity cause now s = (s, aid) := by
  simp [create_or_update_alarm, hreg, hget, hfl, hsev]

theorem create_of_open_diff {rid mtype : String} {v : Option ℚ}
    {severity cause : String} {now : Int} {s : MonitorState} {aid : Nat} {a : AlarmRecord}
    (hreg : alist_lookup (rid, mtype) s.active_alarms = some aid)
    (hget : db_get_alarm s aid = some a) (hfl : a.alarm_cleared = false)
    (hsev : a.perceived_severity ≠ severity) :
    create_or_update_alarm rid mtype v severity cause now s =
      ({ s with
          alarms := store_update aid (sev_update severity now) s.alarms,
          queue := s.queue ++ [NotificationEvent.alarmChanged aid] }, aid) := by
  simp [create_or_update_alarm, hreg, hget, hfl, hsev, db_update_alarm_severity,
        SEND_ALARM_NOTIFICATIONS]

theorem clear_of_not_registered {rid mtype : String} {now : Int} {s : MonitorState}
    (h : alist_lookup (rid, mtype) s.active_alarms = none) :
    clear_alarm_if_exists rid mtype now s = s := by
  simp [clear_alarm_if_exists, h]

theorem clear_of_open {rid mtype : String} {now : Int} {s : MonitorState} {aid : Nat}
    {a : AlarmRecord}
    (hreg : alist_lookup (rid, mtype) s.active_alarms = some aid)
    (hget : db_get_alarm s aid = some a) (hfl : a.alarm_cleared = false) :
    clear_alarm_if_exists rid mtype now s =
      { alarms := store_update aid (clear_update now) s.alarms,
        active_alarms := alist_erase (rid, mtype) s.active_alarms,
        queue := s.queue ++ [NotificationEvent.alarmCleared aid],
        next_id := s.next_id } := by
  simp [clear_alarm_if_exists, hreg, hget, hfl, db_clear_alarm, SEND_ALARM_NOTIFICATIONS]

theorem clear_of_cleared {rid mtype : String} {now : Int} {s : MonitorState} {aid : Nat}
    {a : AlarmRecord}
    (hreg : alist_lookup (rid, mtype) s.active_alarms = some aid)
    (hget : db_get_alarm s aid = some a) (hfl : a.alarm_cleared = true) :
    clear_alarm_if_exists rid mtype now s =
      { s with active_alarms := alist_erase (rid, mtype) s.active_alarms } := by
  simp [clear_alarm_if_exists, hreg, hget, hfl]

theorem clear_of_gone {rid mtype : String} {now : Int} {s : MonitorState} {aid : Nat}
    (hreg : alist_lookup (rid, mtype) s.active_alarms = some aid)
    (hget : db_get_alarm s aid = none) :
    clear_alarm_if_exists rid mtype now s =
      { s with active_alarms := alist_erase (rid, mtype) s.active_alarms } := by
  simp [clear_alarm_if_exists, hreg, hget]

/-! ### The registry invariant -/

/-- The deduplication invariant tying `active_alarms` to the alarms table:
registry entries point at open rows under their key, every open row is
registered under its creation key, ids are below the fresh counter and
pairwise distinct. -/
def Inv (s : MonitorState) : Prop :=
  (∀ k aid, alist_lookup k s.active_alarms = some aid →
     ∃ e, e ∈ s.alarms ∧ e.alarm_id = aid ∧ e.key = k ∧
       e.record.alarm_cleared_time = none ∧ e.record.alarm_cleared = false) ∧
  (∀ e, e ∈ s.alarms → e.record.alarm_cleared_time = none →
     alist_lookup e.key s.active_alarms = some e.alarm_id) ∧
  (∀ e, e ∈ s.alarms → e.alarm_id < s.next_id) ∧
  distinct_ids s.alarms

theorem inv_initial : Inv initial_state := by
  refine ⟨?_, ?_, ?_, ?_⟩ <;> simp [initial_state, distinct_ids, alist_lookup]


theorem sev_update_id (severity : String) (now : Int) (a : AlarmRecord) :
    ((sev_update severity now a).alarm_cleared_time = a.alarm_cleared_time ∧
     (sev_update severity now a).alarm_cleared = a.alarm_cleared) := by
  simp [sev_update]

theorem inv_create (rid mtype : String) (v : Option ℚ) (severity cause : String)
    (now : Int) {s : MonitorState} (h : Inv s) :
    Inv (create_or_update_alarm rid mtype v severity cause now s).1 := by
  obtain ⟨h1, h2, h3, h4⟩ := h
  rcases hreg : alist_lookup (rid, mtype) s.active_alarms with _ | aid
  · rw [create_of_not_registered hreg]
    refine ⟨?_, ?_, ?_, ?_⟩
    · intro k aid' hlk
      by_cases hk : k = (rid, mtype)
      · subst hk
        rw [alist_lookup_insert_self] at hlk
        injection hlk with hh
        subst hh
        exact ⟨new_row s.next_id (rid, mtype) severity cause
            (alist_lookupD ALARM_TYPE_MAP mtype "Other") now,
          by simp, rfl, rfl, rfl, rfl⟩
      · rw [alist_lookup_insert_of_ne _ _ hk] at hlk
        rcases h1 k aid' hlk with ⟨e, hm, hid, hkey, hct, hfl⟩
        exact ⟨e, List.mem_append_left _ hm, hid, hkey, hct, hfl⟩
    · intro e hm hopen
      rcases List.mem_append.mp hm with hm' | hm'
      · have hlk := h2 e hm' hopen
        have hkey : e.key ≠ (rid, mtype) := by
          intro hk
          rw [hk, hreg] at hlk
          cases hlk
        rw [alist_lookup_insert_of_ne _ _ hkey]
        exact hlk
      · have he : e = new_row s.next_id (rid, mtype) severity cause
            (alist_lookupD ALARM_TYPE_MAP mtype "Other") now := by simpa using hm'
        subst he
        exact alist_lookup_insert_self _ _ _
    · intro e hm
      rcases List.mem_append.mp hm with hm' | hm'
      · exact Nat.lt_succ_of_lt (h3 e hm')
      · have he : e = new_row s.next_id (rid, mtype) severity cause
            (alist_lookupD ALARM_TYPE_MAP mtype "Other") now := by simpa using hm'
        subst he
        exact Nat.lt_succ_self _
    · refine List.pairwise_append.mpr ⟨h4, by simp [distinct_ids], ?_⟩
      intro a ha b hb
      have hb' : b = new_row s.next_id (rid, mtype) severity cause
          (alist_lookupD ALARM_TYPE_MAP mtype "Other") now := by simpa using hb
      subst hb'
      exact Nat.ne_of_lt (h3 a ha)
  · rcases h1 (rid, mtype) aid hreg with ⟨e, hm, hid, hkey, hct, hfl⟩
    have hget : db_get_alarm s aid = some e.record := by
      have hg := store_get_of_mem h4 hm
      rw [hid] at hg
      simp [db_get_alarm, hg]
    by_cases hsev : e.record.perceived_severity = severity
    · rw [create_of_open_same hreg hget hfl hsev]
      exact ⟨h1, h2, h3, h4⟩
    · rw [create_of_open_diff hreg hget hfl hsev]
      refine ⟨?_, ?_, ?_, ?_⟩
      · intro k aid' hlk
        rcases h1 k aid' hlk with ⟨e', hm', hid', hkey', hct', hfl'⟩
        by_cases hx : e'.alarm_id = aid
        · refine ⟨{ e' with record := sev_update severity now e'.record },
            ?_, hid', hkey', by simp [sev_update, hct'], by simp [sev_update, hfl']⟩
          have hmem := List.mem_map_of_mem
            (fun x => if x.alarm_id = aid then { x with record := sev_update severity now x.record } else x) hm'
          simpa [store_update, hx] using hmem
        · refine ⟨e', ?_, hid', hkey', hct', hfl'⟩
          have hmem := List.mem_map_of_mem
            (fun x => if x.alarm_id = aid then { x with record := sev_update severity now x.record } else x) hm'
          simpa [store_update, hx] using hmem
      · intro e' hm' hopen
        simp only [store_update, List.mem_map] at hm'
        rcases hm' with ⟨x, hx, hxe⟩
        by_cases hxa : x.alarm_id = aid
        · rw [if_pos hxa] at hxe
          subst hxe
          have hxopen : x.record.alarm_cleared_time = none := by
            simpa [sev_update] using hopen
          simpa [sev_update] using h2 x hx hxopen
        · rw [if_neg hxa] at hxe
          subst hxe
          exact h2 x hx hopen
      · intro e' hm'
        simp only [store_update, List.mem_map] at hm'
        rcases hm' with ⟨x, hx, hxe⟩
        have hide : e'.alarm_id = x.alarm_id := by
          rw [← hxe]
          by_cases hxa : x.alarm_id = aid <;> simp [hxa]
        rw [hide]
        exact h3 x hx
      · unfold distinct_ids store_update
        rw [List.pairwise_map]
        refine List.Pairwise.imp_of_mem ?_ h4
        intro a b _ _ hab
        by_cases ha : a.alarm_id = aid <;> by_cases hb : b.alarm_id = aid <;>
          simp [ha, hb, hab] <;> omega

theorem inv_clear (rid mtype : String) (now : Int) {s : MonitorState} (h : Inv s) :
    Inv (clear_alarm_if_exists rid mtype now s) := by
  obtain ⟨h1, h2, h3, h4⟩ := h
  rcases hreg : alist_lookup (rid, mtype) s.active_alarms with _ | aid
  · rw [clear_of_not_registered hreg]
    exact ⟨h1, h2, h3, h4⟩
  · rcases h1 (rid, mtype) aid hreg with ⟨e, hm, hid, hkey, hct, hfl⟩
    have hget : db_get_alarm s aid = some e.record := by
      have hg := store_get_of_mem h4 hm
      rw [hid] at hg
      simp [db_get_alarm, hg]
    rw [clear_of_open hreg hget hfl]
    refine ⟨?_, ?_, ?_, ?_⟩
    · intro k aid' hlk
      have hk : k ≠ (rid, mtype) := by
        intro hkk
        rw [hkk, alist_lookup_erase_self] at hlk
        cases hlk
      rw [alist_lookup_erase_of_ne _ hk] at hlk
      rcases h1 k aid' hlk with ⟨e', hm', hid', hkey', hct', hfl'⟩
      have haid : e'.alarm_id ≠ aid := by
        intro heq
        have he' : e' = e := distinct_ids_eq_of_mem h4 hm' hm (heq.trans hid.symm)
        rw [he'] at hkey'
        exact hk (hkey'.symm.trans hkey)
      refine ⟨e', ?_, hid', hkey', hct', hfl'⟩
      have hmem := List.mem_map_of_mem
        (fun x => if x.alarm_id = aid then { x with record := clear_update now x.record } else x) hm'
      simpa [store_update, haid] using hmem
    · intro e' hm' hopen
      simp only [store_update, List.mem_map] at hm'
      rcases hm' with ⟨x, hx, hxe⟩
      by_cases hxa : x.alarm_id = aid
      · rw [if_pos hxa] at hxe
        subst hxe
        simp [clear_update] at hopen
      · rw [if_neg hxa] at hxe
        subst hxe
        have hlk := h2 x hx hopen
        have hkx : x.key ≠ (rid, mtype) := by
          intro hkk
          rw [hkk, hreg] at hlk
          injection hlk with hh
          exact hxa hh.symm
        rw [alist_lookup_erase_of_ne _ hkx]
        exact hlk
    · intro e' hm'
      simp only [store_update, List.mem_map] at hm'
      rcases hm' with ⟨x, hx, hxe⟩
      have hide : e'.alarm_id = x.alarm_id := by
        rw [← hxe]
        by_cases hxa : x.alarm_id = aid <;> simp [hxa]
      rw [hide]
      exact h3 x hx
    · unfold distinct_ids store_update
      rw [List.pairwise_map]
      refine List.Pairwise.imp_of_mem ?_ h4
      intro a b _ _ hab
      by_cases ha : a.alarm_id = aid <;> by_cases hb : b.alarm_id = aid <;>
        simp [ha, hb, hab] <;> omega

theorem reachable_inv {s : MonitorState} (h : Reachable s) : Inv s := by
  induction h with
  | init => exact inv_initial
  | create rid mtype v severity cause now _ ih => exact inv_create rid mtype v severity cause now ih
  | clear rid mtype now _ ih => exact inv_clear rid mtype now ih


theorem store_get_append_of_ne {aid : Nat} {l l' : List StoredAlarm}
    (h : ∀ e ∈ l, e.alarm_id ≠ aid) :
    store_get aid (l ++ l') = store_get aid l' := by
  induction l with
  | nil => rfl
  | cons x rest ih =>
    have hx := h x (by simp)
    simp only [List.cons_append, store_get, if_neg hx]
    exact ih (fun e he => h e (List.mem_cons_of_mem _ he))

/-- C1: starting from the empty registry, under the monitor operations at most
one open (not-cleared) alarm exists per `(resource_id, metric_type)` key;
every open alarm is recorded in the registry under its creation key; and
`create_or_update_alarm` adds no row when the registry entry of the key
points at an open alarm. -/
theorem alarm_registry_invariant (s : MonitorState) (h : Reachable s) :
    (∀ k : String × String,
       (s.alarms.filter
         (fun e => decide (e.key = k) && e.record.alarm_cleared_time.isNone)).length ≤ 1)
    ∧ (∀ e, e ∈ s.alarms → e.record.alarm_cleared_time = none →
         alist_lookup e.key s.active_alarms = some e.alarm_id)
    ∧ (∀ k aid, alist_lookup k s.active_alarms = some aid →
         ∀ v severity cause now,
           ((create_or_update_alarm k.1 k.2 v severity cause now s).1).alarms.length
             = s.alarms.length) := by
  obtain ⟨h1, h2, h3, h4⟩ := reachable_inv h
  refine ⟨?_, h2, ?_⟩
  · intro k
    have hpw : List.Pairwise (fun a b : StoredAlarm => a.alarm_id ≠ b.alarm_id)
        (s.alarms.filter
          (fun e => decide (e.key = k) && e.record.alarm_cleared_time.isNone)) :=
      List.Pairwise.sublist (List.filter_sublist _) h4
    apply length_le_one_of_pairwise_not hpw
    intro a ha b hb
    rcases List.mem_filter.mp ha with ⟨ha', hpa⟩
    rcases List.mem_filter.mp hb with ⟨hb', hpb⟩
    simp only [Bool.and_eq_true, decide_eq_true_eq, Option.isNone_iff_eq_none] at hpa hpb
    have hla := h2 a ha' hpa.2
    have hlb := h2 b hb' hpb.2
    rw [hpa.1] at hla
    rw [hpb.1] at hlb
    rw [hla] at hlb
    intro hne
    exact hne (Option.some_inj.mp hlb)
  · intro k aid hlk v severity cause now
    rcases h1 k aid hlk with ⟨e, hm, hid, hkey, hct, hfl⟩
    have hget : db_get_alarm s aid = some e.record := by
      have hg := store_get_of_mem h4 hm
      rw [hid] at hg
      simp [db_get_alarm, hg]
    have hreg : alist_lookup (k.1, k.2) s.active_alarms = some aid := by
      simpa using hlk
    by_cases hsev : e.record.perceived_severity = severity
    · rw [create_of_open_same hreg hget hfl hsev]
    · rw [create_of_open_diff hreg hget hfl hsev]
      simp [store_update]

/-- Closed instance of C1 at a concrete reachable state. -/
theorem alarm_registry_invariant_witness :
    (∀ k : String × String,
       (((create_or_update_alarm "node-1" "cpu_usage" (some 96) "CRITICAL" "cause" 0
            initial_state).1).alarms.filter
         (fun e => decide (e.key = k) && e.record.alarm_cleared_time.isNone)).length ≤ 1)
    ∧ (∀ e, e ∈ ((create_or_update_alarm "node-1" "cpu_usage" (some 96) "CRITICAL" "cause" 0
            initial_state).1).alarms → e.record.alarm_cleared_time = none →
         alist_lookup e.key ((create_or_update_alarm "node-1" "cpu_usage" (some 96) "CRITICAL"
            "cause" 0 initial_state).1).active_alarms = some e.alarm_id)
    ∧ (∀ k aid, alist_lookup k ((create_or_update_alarm "node-1" "cpu_usage" (some 96)
            "CRITICAL" "cause" 0 initial_state).1).active_alarms = some aid →
         ∀ v severity cause now,
           ((create_or_update_alarm k.1 k.2 v severity cause now
              ((create_or_update_alarm "node-1" "cpu_usage" (some 96) "CRITICAL" "cause" 0
                initial_state).1)).1).alarms.length
             = ((create_or_update_alarm "node-1" "cpu_usage" (some 96) "CRITICAL" "cause" 0
                initial_state).1).alarms.length) :=
  alarm_registry_invariant _
    (Reachable.create "node-1" "cpu_usage" (some 96) "CRITICAL" "cause" 0 Reachable.init)

/-- C3: re-invoking `create_or_update_alarm` with the same key and severity
while the first alarm is open creates no new row and enqueues nothing
(returning the existing id); a differing severity updates the stored
severity and changed_time and enqueues exactly one alarm-changed event. -/
theorem create_or_update_notification_semantics
    (rid mtype : String) (v v' : Option ℚ) (severity cause cause' : String)
    (now now' : Int) (s : MonitorState) (aid : Nat) (a : AlarmRecord) :
    (alist_lookup (rid, mtype) s.active_alarms = none →
     (∀ e, e ∈ s.alarms → e.alarm_id ≠ s.next_id) →
     (create_or_update_alarm rid mtype v' severity cause' now'
        (create_or_update_alarm rid mtype v severity cause now s).1)
       = ((create_or_update_alarm rid mtype v severity cause now s).1,
          (create_or_update_alarm rid mtype v severity cause now s).2)
     ∧ ((create_or_update_alarm rid mtype v severity cause now s).1).alarms.length
         = s.alarms.length + 1
     ∧ ((create_or_update_alarm rid mtype v severity cause now s).1).queue
         = s.queue ++ [NotificationEvent.alarmRaised s.next_id])
    ∧ (alist_lookup (rid, mtype) s.active_alarms = some aid →
       db_get_alarm s aid = some a → a.alarm_cleared = false →
       a.perceived_severity = severity →
       create_or_update_alarm rid mtype v severity cause now s = (s, aid))
    ∧ (alist_lookup (rid, mtype) s.active_alarms = some aid →
       db_get_alarm s aid = some a → a.alarm_cleared = false →
       a.perceived_severity ≠ severity →
       ((create_or_update_alarm rid mtype v severity cause now s).1).queue
           = s.queue ++ [NotificationEvent.alarmChanged aid]
       ∧ db_get_alarm (create_or_update_alarm rid mtype v severity cause now s).1 aid
           = some (sev_update severity now a)
       ∧ ((create_or_update_alarm rid mtype v severity cause now s).1).alarms.length
           = s.alarms.length
       ∧ (create_or_update_alarm rid mtype v severity cause now s).2 = aid) := by
  refine ⟨?_, ?_, ?_⟩
  · intro hreg hfresh
    rw [create_of_not_registered hreg]
    refine ⟨?_, by simp, rfl⟩
    have hreg' : alist_lookup (rid, mtype)
        (alist_insert (rid, mtype) s.next_id s.active_alarms) = some s.next_id :=
      alist_lookup_insert_self _ _ _
    have hget' : db_get_alarm
        ({ alarms := s.alarms ++
             [new_row s.next_id (rid, mtype) severity cause
                (alist_lookupD ALARM_TYPE_MAP mtype "Other") now],
           active_alarms := alist_insert (rid, mtype) s.next_id s.active_alarms,
           queue := s.queue ++ [NotificationEvent.alarmRaised s.next_id],
           next_id := s.next_id + 1 } : MonitorState) s.next_id
        = some (new_row s.next_id (rid, mtype) severity cause
            (alist_lookupD ALARM_TYPE_MAP mtype "Other") now).record := by
      simp only [db_get_alarm]
      rw [store_get_append_of_ne hfresh]
      simp [store_get, new_row]
    exact create_of_open_same hreg' hget' rfl rfl
  · intro hreg hget hfl hsev
    exact create_of_open_same hreg hget hfl hsev
  · intro hreg hget hfl hsev
    rw [create_of_open_diff hreg hget hfl hsev]
    refine ⟨rfl, ?_, by simp [store_update], rfl⟩
    simp only [db_get_alarm] at hget ⊢
    rw [store_get_update]
    rcases Option.map_eq_some'.mp hget with ⟨e, he, herec⟩
    rw [he]
    simp [herec]

/-- Closed instance of C3: a duplicate MINOR classification after a fresh
creation is a no-op, and an escalation to CRITICAL updates the row and
enqueues one alarm-changed event. -/
theorem create_or_update_notification_semantics_witness :
    ((create_or_update_alarm "node-1" "cpu_usage" (some 91) "MINOR" "cause2" 1
        (create_or_update_alarm "node-1" "cpu_usage" (some 91) "MINOR" "cause1" 0
          initial_state).1)
       = ((create_or_update_alarm "node-1" "cpu_usage" (some 91) "MINOR" "cause1" 0
            initial_state).1,
          (create_or_update_alarm "node-1" "cpu_usage" (some 91) "MINOR" "cause1" 0
            initial_state).2)
     ∧ ((create_or_update_alarm "node-1" "cpu_usage" (some 91) "MINOR" "cause1" 0
          initial_state).1).alarms.length = initial_state.alarms.length + 1
     ∧ ((create_or_update_alarm "node-1" "cpu_usage" (some 91) "MINOR" "cause1" 0
          initial_state).1).queue
         = initial_state.queue ++ [NotificationEvent.alarmRaised initial_state.next_id])
    ∧ (((create_or_update_alarm "node-1" "cpu_usage" (some 96) "CRITICAL" "cause3" 2
          (create_or_update_alarm "node-1" "cpu_usage" (some 91) "MINOR" "cause1" 0
            initial_state).1).1).queue
         = ((create_or_update_alarm "node-1" "cpu_usage" (some 91) "MINOR" "cause1" 0
            initial_state).1).queue ++ [NotificationEvent.alarmChanged 0]
       ∧ db_get_alarm (create_or_update_alarm "node-1" "cpu_usage" (some 96) "CRITICAL"
            "cause3" 2
            (create_or_update_alarm "node-1" "cpu_usage" (some 91) "MINOR" "cause1" 0
              initial_state).1).1 0
           = some (sev_update "CRITICAL" 2
               ⟨"node-1", "MINOR", "cause1", "ProcessingError", false, 0, none, none, false⟩)) := by
  constructor
  · exact (create_or_update_notification_semantics "node-1" "cpu_usage" (some 91) (some 91)
      "MINOR" "cause1" "cause2" 0 1 initial_state 0
      ⟨"", "", "", "", false, 0, none, none, false⟩).1 rfl (by simp [initial_state])
  · have h := (create_or_update_notification_semantics "node-1" "cpu_usage" (some 96)
      (some 96) "CRITICAL" "cause3" "x" 2 3
      (create_or_update_alarm "node-1" "cpu_usage" (some 91) "MINOR" "cause1" 0
        initial_state).1 0
      ⟨"node-1", "MINOR", "cause1", "ProcessingError", false, 0, none, none, false⟩).2.2
      rfl rfl rfl (by decide)
    exact ⟨h.1, h.2.1⟩

/-- C4: clearing a key with no registry entry changes nothing and enqueues
nothing; clearing a key whose stored alarm is already marked cleared only
removes the registry entry and enqueues nothing; clearing twice in a row
equals clearing once. -/
theorem clear_alarm_idempotent (rid mtype : String) (now now' : Int) (s : MonitorState)
    (aid : Nat) (a : AlarmRecord) :
    (alist_lookup (rid, mtype) s.active_alarms = none →
       clear_alarm_if_exists rid mtype now s = s)
    ∧ (alist_lookup (rid, mtype) s.active_alarms = some aid →
       db_get_alarm s aid = some a → a.alarm_cleared = true →
       clear_alarm_if_exists rid mtype now s
         = { s with active_alarms := alist_erase (rid, mtype) s.active_alarms })
    ∧ (clear_alarm_if_exists rid mtype now' (clear_alarm_if_exists rid mtype now s)
         = clear_alarm_if_exists rid mtype now s) := by
  refine ⟨fun h => clear_of_not_registered h, fun hreg hget hfl => clear_of_cleared hreg hget hfl, ?_⟩
  rcases hreg : alist_lookup (rid, mtype) s.active_alarms with _ | aid'
  · rw [clear_of_not_registered hreg]
    exact clear_of_not_registered hreg
  · rcases hget : db_get_alarm s aid' with _ | a'
    · rw [clear_of_gone hreg hget]
      exact clear_of_not_registered (by simpa using alist_lookup_erase_self (rid, mtype) s.active_alarms)
    · rcases hfl : a'.alarm_cleared with _ | _
      · rw [clear_of_open hreg hget hfl]
        exact clear_of_not_registered (by simpa using alist_lookup_erase_self (rid, mtype) s.active_alarms)
      · rw [clear_of_cleared hreg hget hfl]
        exact clear_of_not_registered (by simpa using alist_lookup_erase_self (rid, mtype) s.active_alarms)

/-- Closed instance of C4: clearing on the empty registry is a no-op; on a
registry entry pointing at a row already marked cleared nothing is enqueued;
a double clear equals a single clear. -/
theorem clear_alarm_idempotent_witness :
    (clear_alarm_if_exists "node-1" "cpu_usage" 5 initial_state = initial_state)
    ∧ (clear_alarm_if_exists "node-1" "cpu_usage" 5
        ⟨[⟨0, ("node-1", "cpu_usage"),
            ⟨"node-1", "MINOR", "c", "ProcessingError", false, 0, none, some 1, true⟩⟩],
          [(("node-1", "cpu_usage"), 0)], [], 1⟩
        = { (⟨[⟨0, ("node-1", "cpu_usage"),
            ⟨"node-1", "MINOR", "c", "ProcessingError", false, 0, none, some 1, true⟩⟩],
          [(("node-1", "cpu_usage"), 0)], [], 1⟩ : MonitorState) with
            active_alarms := alist_erase ("node-1", "cpu_usage")
              [(("node-1", "cpu_usage"), 0)] })
    ∧ (clear_alarm_if_exists "node-1" "cpu_usage" 6
        (clear_alarm_if_exists "node-1" "cpu_usage" 5 initial_state)
       = clear_alarm_if_exists "node-1" "cpu_usage" 5 initial_state) := by
  refine ⟨?_, ?_, ?_⟩
  · exact (clear_alarm_idempotent "node-1" "cpu_usage" 5 6 initial_state 0
      ⟨"", "", "", "", false, 0, none, none, false⟩).1 rfl
  · exact (clear_alarm_idempotent "node-1" "cpu_usage" 5 6
      ⟨[⟨0, ("node-1", "cpu_usage"),
          ⟨"node-1", "MINOR", "c", "ProcessingError", false, 0, none, some 1, true⟩⟩],
        [(("node-1", "cpu_usage"), 0)], [], 1⟩ 0
      ⟨"node-1", "MINOR", "c", "ProcessingError", false, 0, none, some 1, true⟩).2.1
      rfl rfl rfl
  · exact (clear_alarm_idempotent "node-1" "cpu_usage" 5 6 initial_state 0
      ⟨"", "", "", "", false, 0, none, none, false⟩).2.2


/-- C2: with a non-empty ordered threshold set, `check_threshold` classifies
highest-severity-first (CRITICAL, MAJOR, MINOR), clears below the clear
bound, and takes no action at all in the hysteresis band
`clear ≤ v < minor`, so any existing alarm persists unchanged. -/
theorem check_threshold_classification (rid mtype : String) (v : ℚ)
    (thr : List (String × ℚ)) (now : Int) (s : MonitorState)
    (hne : thr ≠ [])
    (hcm : alist_lookupD thr "clear" 70 ≤ alist_lookupD thr "minor" 80)
    (hmm : alist_lookupD thr "minor" 80 ≤ alist_lookupD thr "major" 90)
    (hmc : alist_lookupD thr "major" 90 ≤ alist_lookupD thr "critical" 100) :
    (alist_lookupD thr "critical" 100 ≤ v →
       check_threshold rid mtype v thr now s
         = (create_or_update_alarm rid mtype (some v) "CRITICAL"
             (format_cause mtype v (alist_lookupD thr "critical" v)) now s).1)
    ∧ (alist_lookupD thr "major" 90 ≤ v → v < alist_lookupD thr "critical" 100 →
       check_threshold rid mtype v thr now s
         = (create_or_update_alarm rid mtype (some v) "MAJOR"
             (format_cause mtype v (alist_lookupD thr "major" v)) now s).1)
    ∧ (alist_lookupD thr "minor" 80 ≤ v → v < alist_lookupD thr "major" 90 →
       check_threshold rid mtype v thr now s
         = (create_or_update_alarm rid mtype (some v) "MINOR"
             (format_cause mtype v (alist_lookupD thr "minor" v)) now s).1)
    ∧ (v < alist_lookupD thr "clear" 70 →
       check_threshold rid mtype v thr now s = clear_alarm_if_exists rid mtype now s)
    ∧ (alist_lookupD thr "clear" 70 ≤ v → v < alist_lookupD thr "minor" 80 →
       check_threshold rid mtype v thr now s = s) := by
  refine ⟨?_, ?_, ?_, ?_, ?_⟩
  · intro h
    have hsev : threshold_severity thr v = some ("CRITICAL", "critical") := by
      rw [threshold_severity, if_pos (ge_iff_le.mpr h)]
    simp [check_threshold, hne, hsev]
  · intro h1 h2
    have hsev : threshold_severity thr v = some ("MAJOR", "major") := by
      rw [threshold_severity, if_neg (not_le.mpr h2), if_pos h1]
    simp [check_threshold, hne, hsev]
  · intro h1 h2
    have hsev : threshold_severity thr v = some ("MINOR", "minor") := by
      have hc : ¬ alist_lookupD thr "critical" 100 ≤ v := not_le.mpr (lt_of_lt_of_le h2 hmc)
      rw [threshold_severity, if_neg hc, if_neg (not_le.mpr h2), if_pos h1]
    simp [check_threshold, hne, hsev]
  · intro h
    have hmi : v < alist_lookupD thr "minor" 80 := lt_of_lt_of_le h hcm
    have hma : v < alist_lookupD thr "major" 90 := lt_of_lt_of_le hmi hmm
    have hcr : v < alist_lookupD thr "critical" 100 := lt_of_lt_of_le hma hmc
    have hsev : threshold_severity thr v = none := by
      rw [threshold_severity, if_neg (not_le.mpr hcr), if_neg (not_le.mpr hma),
        if_neg (not_le.mpr hmi)]
    simp [check_threshold, hne, hsev, h]
  · intro h1 h2
    have hma : v < alist_lookupD thr "major" 90 := lt_of_lt_of_le h2 hmm
    have hcr : v < alist_lookupD thr "critical" 100 := lt_of_lt_of_le hma hmc
    have hsev : threshold_severity thr v = none := by
      rw [threshold_severity, if_neg (not_le.mpr hcr), if_neg (not_le.mpr hma),
        if_neg (not_le.mpr h2)]
    simp [check_threshold, hne, hsev, not_lt.mpr h1]

/-- Closed instance of C2 at the configured cpu_usage thresholds
95 / 90 / 80 / 75 with sample value 96. -/
theorem check_threshold_classification_witness :
    ((alist_lookupD [("critical", (95:ℚ)), ("major", 90), ("minor", 80), ("clear", 75)]
        "critical" 100 ≤ (96:ℚ) →
      check_threshold "node-1" "cpu_usage" 96
          [("critical", 95), ("major", 90), ("minor", 80), ("clear", 75)] 0 initial_state
        = (create_or_update_alarm "node-1" "cpu_usage" (some 96) "CRITICAL"
            (format_cause "cpu_usage" 96
              (alist_lookupD [("critical", (95:ℚ)), ("major", 90), ("minor", 80), ("clear", 75)]
                "critical" 96)) 0 initial_state).1))
    ∧ ((95:ℚ) ≤ 96) := by
  refine ⟨?_, by norm_num⟩
  exact (check_threshold_classification "node-1" "cpu_usage" 96
    [("critical", 95), ("major", 90), ("minor", 80), ("clear", 75)] 0 initial_state
    (by simp) (by decide) (by decide) (by decide)).1

/-- C10: a metric with an empty thresholds dict is exempt: `check_threshold`
returns the state unchanged, neither raising nor clearing; in a non-empty
dict each individually missing bound is substituted with the defaults
critical 100, major 90, minor 80, clear 70, leaving the classification
unchanged if the defaults are written out explicitly. -/
theorem check_threshold_empty_and_defaults (rid mtype : String) (v : ℚ)
    (thr : List (String × ℚ)) (now : Int) (s : MonitorState) :
    (check_threshold rid mtype v [] now s = s)
    ∧ (thr ≠ [] →
        alist_lookup "critical"
            (thr ++ [("critical", (100:ℚ)), ("major", 90), ("minor", 80), ("clear", 70)])
          = some (alist_lookupD thr "critical" 100)
        ∧ alist_lookup "major"
            (thr ++ [("critical", (100:ℚ)), ("major", 90), ("minor", 80), ("clear", 70)])
          = some (alist_lookupD thr "major" 90)
        ∧ alist_lookup "minor"
            (thr ++ [("critical", (100:ℚ)), ("major", 90), ("minor", 80), ("clear", 70)])
          = some (alist_lookupD thr "minor" 80)
        ∧ alist_lookup "clear"
            (thr ++ [("critical", (100:ℚ)), ("major", 90), ("minor", 80), ("clear", 70)])
          = some (alist_lookupD thr "clear" 70)
        ∧ threshold_severity thr v
          = threshold_severity
              (thr ++ [("critical", (100:ℚ)), ("major", 90), ("minor", 80), ("clear", 70)]) v) := by
  have hlk : ∀ (name : String) (d : ℚ),
      alist_lookup name [("critical", (100:ℚ)), ("major", 90), ("minor", 80), ("clear", 70)]
        = some d →
      alist_lookup name
          (thr ++ [("critical", (100:ℚ)), ("major", 90), ("minor", 80), ("clear", 70)])
        = some (alist_lookupD thr name d) := by
    intro name d hd
    rw [alist_lookup_append]
    rcases hl : alist_lookup name thr with _ | w
    · simp [alist_lookupD, hl, hd]
    · simp [alist_lookupD, hl]
  have hc := hlk "critical" 100 rfl
  have hma := hlk "major" 90 rfl
  have hmi := hlk "minor" 80 rfl
  have hcl := hlk "clear" 70 rfl
  refine ⟨by simp [check_threshold], fun _ => ⟨hc, hma, hmi, hcl, ?_⟩⟩
  simp only [threshold_severity, alist_lookupD, hc, hma, hmi, Option.getD_some]

/-- Closed instance of C10: empty dict no-ops on a sample state; a dict
holding only a critical bound gets major 90, minor 80, clear 70 filled in. -/
theorem check_threshold_empty_and_defaults_witness :
    (check_threshold "node-1" "memory_usage" (97:ℚ) [] 0 initial_state = initial_state)
    ∧ (alist_lookup "critical"
          ([("critical", (98:ℚ))] ++ [("critical", (100:ℚ)), ("major", 90), ("minor", 80), ("clear", 70)])
        = some (alist_lookupD [("critical", (98:ℚ))] "critical" 100)
      ∧ alist_lookup "major"
          ([("critical", (98:ℚ))] ++ [("critical", (100:ℚ)), ("major", 90), ("minor", 80), ("clear", 70)])
        = some (alist_lookupD [("critical", (98:ℚ))] "major" 90)
      ∧ alist_lookup "minor"
          ([("critical", (98:ℚ))] ++ [("critical", (100:ℚ)), ("major", 90), ("minor", 80), ("clear", 70)])
        = some (alist_lookupD [("critical", (98:ℚ))] "minor" 80)
      ∧ alist_lookup "clear"
          ([("critical", (98:ℚ))] ++ [("critical", (100:ℚ)), ("major", 90), ("minor", 80), ("clear", 70)])
        = some (alist_lookupD [("critical", (98:ℚ))] "clear" 70)
      ∧ threshold_severity [("critical", (98:ℚ))] (97:ℚ)
        = threshold_severity
            ([("critical", (98:ℚ))] ++ [("critical", (100:ℚ)), ("major", 90), ("minor", 80), ("clear", 70)])
            (97:ℚ)) :=
  ⟨(check_threshold_empty_and_defaults "node-1" "memory_usage" 97 [("critical", (98:ℚ))] 0
      initial_state).1,
   (check_threshold_empty_and_defaults "node-1" "memory_usage" 97 [("critical", (98:ℚ))] 0
      initial_state).2 (by simp)⟩


/-! ### Notification manager (`notification_manager.py`) -/

/-- Outcome of one `requests.post` attempt as seen by the retry loop. -/
inductive HttpOutcome where
  | status (code : Nat)
  | timedOut
  | connectionErr
  | otherErr
deriving DecidableEq, Repr

/-- The success statuses accepted by the delivery code. -/
def success_codes : List Nat := [200, 201, 202, 204]

def is_success (o : HttpOutcome) : Bool :=
  match o with
  | .status c => success_codes.contains c
  | _ => false

/-- The retry loop body of `NotificationManager._send_notification`, iterating
over the remaining attempt indices. Result: (returned value, sleeps performed
in seconds, number of attempts made). -/
def send_go (outcomes : Nat → HttpOutcome) (max_retries : Nat) :
    List Nat → Bool × List Nat × Nat
  | [] => (false, [], 0)
  | attempt :: rest =>
    if is_success (outcomes attempt) then (true, [], 1)
    else
      let tail := send_go outcomes max_retries rest
      (tail.1,
       (if attempt < max_retries - 1 then [2 ^ attempt] else []) ++ tail.2.1,
       tail.2.2 + 1)

/-- `NotificationManager._send_notification`: `for attempt in range(max_retries)`,
return True at the first 200/201/202/204, sleep `2 ** attempt` between
consecutive attempts, and return False after exhausting the retries. -/
def send_notification (outcomes : Nat → HttpOutcome) (max_retries : Nat) :
    Bool × List Nat × Nat :=
  send_go outcomes max_retries (List.range max_retries)

/-- C5: with the default `max_retries = 3`, an always-failing callback is
attempted exactly 3 times with sleeps of 1s and 2s between consecutive
attempts (none after the final one) and the call returns False; the call
returns True exactly when some attempt has a status in {200, 201, 202, 204},
and it stops at the first success, having slept `2^i` for each failed
attempt `i` before it. -/
theorem send_notification_retry_semantics (outcomes : Nat → HttpOutcome) :
    ((∀ i, i < 3 → is_success (outcomes i) = false) →
       send_notification outcomes 3 = (false, [1, 2], 3))
    ∧ ((send_notification outcomes 3).1 = true ↔
        ∃ i, i < 3 ∧ is_success (outcomes i) = true)
    ∧ (∀ i₀, i₀ < 3 → is_success (outcomes i₀) = true →
        (∀ j, j < i₀ → is_success (outcomes j) = false) →
        (send_notification outcomes 3).2.2 = i₀ + 1
        ∧ (send_notification outcomes 3).2.1 = (List.range i₀).map (fun a => 2 ^ a)) := by
  have hrange : List.range 3 = [0, 1, 2] := by decide
  refine ⟨?_, ?_, ?_⟩
  · intro h
    simp [send_notification, hrange, send_go, h 0 (by omega), h 1 (by omega),
      h 2 (by omega)]
  · cases h0 : is_success (outcomes 0) <;> cases h1 : is_success (outcomes 1) <;>
      cases h2 : is_success (outcomes 2) <;>
      simp [send_notification, hrange, send_go, h0, h1, h2] <;>
      first
        | exact ⟨0, by omega, h0⟩
        | exact ⟨1, by omega, h1⟩
        | exact ⟨2, by omega, h2⟩
        | (intro x hx; interval_cases x <;> assumption)
  · intro i₀ hi₀ hs hprev
    interval_cases i₀
    · simp [send_notification, hrange, send_go, hs]
    · simp [send_notification, hrange, send_go, hs, hprev 0 (by omega)]
      decide
    · simp [send_notification, hrange, send_go, hs, hprev 0 (by omega),
        hprev 1 (by omega)]
      decide

/-- Closed instance of C5: a callback always answering HTTP 500 gives three
attempts, sleeps [1, 2] and result False; one answering 200 at the second
attempt stops there after sleeping 1s. -/
theorem send_notification_retry_semantics_witness :
    (send_notification (fun _ => HttpOutcome.status 500) 3 = (false, [1, 2], 3))
    ∧ ((send_notification (fun i => if i = 1 then HttpOutcome.status 200
          else HttpOutcome.status 500) 3).2.2 = 1 + 1
      ∧ (send_notification (fun i => if i = 1 then HttpOutcome.status 200
          else HttpOutcome.status 500) 3).2.1 = (List.range 1).map (fun a => 2 ^ a)) := by
  constructor
  · exact (send_notification_retry_semantics (fun _ => HttpOutcome.status 500)).1
      (fun i _ => rfl)
  · exact (send_notification_retry_semantics (fun i => if i = 1 then HttpOutcome.status 200
      else HttpOutcome.status 500)).2.2 1 (by omega) (by decide)
      (fun j hj => by interval_cases j; decide)


/-- JSON values, as far as the filter-matching code inspects them. -/
inductive Json where
  | jnull
  | jbool (b : Bool)
  | jnum (q : ℚ)
  | jstr (s : String)
  | jarr (xs : List Json)
  | jobj (fields : List (String × Json))

/-- The `filter` value of a subscription dict. `pynone` is SQL NULL (Python
None); `pystr o` is a string column value carrying the outcome of
`json.loads` (`none` when parsing raises); `pyval j` is an already-parsed
JSON value (`get_subscriptions` parses truthy filter strings before the
matcher runs). -/
inductive PyFilter where
  | pynone
  | pystr (parsed : Option Json)
  | pyval (j : Json)

/-- Python truthiness of a parsed JSON value. -/
def json_falsy : Json → Bool
  | .jnull => true
  | .jbool b => !b
  | .jnum q => decide (q = 0)
  | .jstr s => decide (s = "")
  | .jarr xs => xs.isEmpty
  | .jobj fs => fs.isEmpty

/-- The normalization prefix of `_matches_ims_filter`: a string filter is
parsed, an unparseable one becomes `{}`; None stays None. -/
def normalize_filter : PyFilter → Option Json
  | .pynone => none
  | .pystr none => some (.jobj [])
  | .pystr (some j) => some j
  | .pyval j => some j

/-- The stored-resource fields consulted by the matcher. -/
structure ResourceRow where
  resource_pool_id : Option String
  resource_type_id : Option String
deriving DecidableEq, Repr

/-- Python `==` between a JSON filter value and a nullable DB string. -/
def py_eq (j : Json) (o : Option String) : Bool :=
  match j, o with
  | .jstr s, some t => decide (s = t)
  | .jnull, none => true
  | _, _ => false

/-- Naive substring test (Python `key in str`). -/
def str_has_substr (s key : String) : Bool :=
  (List.range (s.length + 1)).any (fun i => ((s.drop i).take key.length) = key)

/-- Python `key in filter_data`. `.error` models the TypeError raised when the
value is not iterable (numbers, booleans, None). -/
def json_member (key : String) : Json → Except Unit Bool
  | .jobj fs => .ok (alist_lookup key fs).isSome
  | .jarr xs => .ok (xs.any (fun j => match j with | .jstr s => decide (s = key) | _ => false))
  | .jstr s => .ok (str_has_substr s key)
  | _ => .error ()

/-- Python `filter_data[key]`, only reached after a successful membership
test; `.error` models the TypeError of indexing a list or string with a
string key. -/
def json_subscript (key : String) : Json → Except Unit Json
  | .jobj fs =>
    match alist_lookup key fs with
    | some v => .ok v
    | none => .error ()
  | _ => .error ()

/-- One field block of `_matches_ims_filter`: `ok true` means the block reached
`return False`, `ok false` means fall through. -/
def ims_field_rejects (fd : Json) (key : String) (resource : Option ResourceRow)
    (proj : ResourceRow → Option String) : Except Unit Bool :=
  match json_member key fd with
  | .error _ => .error ()
  | .ok false => .ok false
  | .ok true =>
    match json_subscript key fd with
    | .error _ => .error ()
    | .ok v =>
      match resource with
      | none => .ok false
      | some res => .ok (!(py_eq v (proj res)))

/-- `NotificationManager._matches_ims_filter`. The `resource` argument is the
result of `db.get_resource(notification.get('resource_id'))`. `.error`
models an uncaught TypeError escaping the matcher. -/
def matches_ims_filter (f : PyFilter) (resource : Option ResourceRow) :
    Except Unit Bool :=
  match normalize_filter f with
  | none => .ok true
  | some fd =>
    if json_falsy fd then .ok true
    else
      match ims_field_rejects fd "resourcePoolId" resource (·.resource_pool_id) with
      | .error _ => .error ()
      | .ok true => .ok false
      | .ok false =>
        match ims_field_rejects fd "resourceTypeId" resource (·.resource_type_id) with
        | .error _ => .error ()
        | .ok true => .ok false
        | .ok false => .ok true

/-- C6 (counterexample): a subscription whose filter is an unparseable JSON
string is matched (`True`, i.e. match-all), not treated as non-matching;
the claim says the matcher returns False for it. -/
theorem matches_ims_filter_counterexample :
    matches_ims_filter (.pystr none) (some ⟨some "pool-1", some "type-1"⟩)
      = Except.ok true
    ∧ (Except.ok true : Except Unit Bool) ≠ Except.ok false := by
  exact ⟨rfl, by simp⟩

/-- C6 (amended): every empty filter — NULL, empty dict, and any Python-falsy
parsed value — matches unconditionally, and an unparseable JSON filter
string is normalized to the empty dict and therefore also matches
unconditionally (fail-open), without raising. -/
theorem matches_ims_filter_empty_and_malformed (r : Option ResourceRow) :
    matches_ims_filter .pynone r = Except.ok true
    ∧ matches_ims_filter (.pystr none) r = Except.ok true
    ∧ (∀ j : Json, json_falsy j = true →
        matches_ims_filter (.pyval j) r = Except.ok true
        ∧ matches_ims_filter (.pystr (some j)) r = Except.ok true) := by
  refine ⟨rfl, rfl, fun j hj => ⟨?_, ?_⟩⟩ <;>
    simp [matches_ims_filter, normalize_filter, hj]

/-- Closed instance of the amended C6. -/
theorem matches_ims_filter_empty_and_malformed_witness :
    matches_ims_filter .pynone (some ⟨some "pool-1", none⟩) = Except.ok true
    ∧ matches_ims_filter (.pystr none) (some ⟨some "pool-1", none⟩) = Except.ok true
    ∧ matches_ims_filter (.pyval (.jobj [])) (some ⟨some "pool-1", none⟩) = Except.ok true := by
  have h := matches_ims_filter_empty_and_malformed (some ⟨some "pool-1", none⟩)
  exact ⟨h.1, h.2.1, (h.2.2 (.jobj []) rfl).1⟩

/-! ### Alarm notification delivery (`_deliver_alarm_notification`) -/

structure SubscriptionRow where
  subscription_id : String
  callback_uri : String
  filter : PyFilter

/-- An alarms-table row as used by the delivery path. -/
structure AlarmRow where
  alarm_id : String
  resource_id : String
  perceived_severity : String
  probable_cause : String
  alarm_raised_time : String

/-- `_build_alarm_notification_payload`. -/
structure AlarmNotificationPayload where
  notificationEventType : String
  objectRef : String
  objectType : String
  notificationId : String
  subscriptionId : String
  timestamp : String
  alarmId : String
  resourceId : String
  perceivedSeverity : String
  probableCause : String
  alarmRaisedTime : String

def build_alarm_notification_payload (sub : SubscriptionRow) (alarm : AlarmRow)
    (event_type notification_id timestamp : String) : AlarmNotificationPayload :=
  { notificationEventType := event_type,
    objectRef := "/O2dms_infrastructureMonitoring/v1/alarms/" ++ alarm.alarm_id,
    objectType := "AlarmEventRecord",
    notificationId := notification_id,
    subscriptionId := sub.subscription_id,
    timestamp := timestamp,
    alarmId := alarm.alarm_id,
    resourceId := alarm.resource_id,
    perceivedSeverity := alarm.perceived_severity,
    probableCause := alarm.probable_cause,
    alarmRaisedTime := alarm.alarm_raised_time }

/-- Python falsiness of `filter_data.get('resourceId')`. -/
def opt_falsy : Option Json → Bool
  | none => true
  | some j => json_falsy j

/-- The send condition of the delivery loop for a dict-shaped filter:
`filter_data.get('resourceId') == resource_id or not filter_data.get('resourceId')`. -/
def dict_filter_sends (fs : List (String × Json)) (rid : String) : Bool :=
  (match alist_lookup "resourceId" fs with
   | some j => py_eq j (some rid)
   | none => false)
  || opt_falsy (alist_lookup "resourceId" fs)

/-- Per-subscription decision of `_deliver_alarm_notification`. `.error`
models the AttributeError of calling `.get` on None or on a parsed
non-dict value. -/
def alarm_filter_decision (f : PyFilter) (rid : String) : Except Unit Bool :=
  match normalize_filter f with
  | none => .error ()
  | some (.jobj fs) => .ok (dict_filter_sends fs rid)
  | some _ => .error ()

/-- The subscription loop: payloads posted in order and whether an uncaught
exception aborted the loop (losing the remaining subscribers). -/
def deliver_go (alarm : AlarmRow) (event_type notification_id timestamp : String) :
    List SubscriptionRow → List (String × AlarmNotificationPayload) × Bool
  | [] => ([], false)
  | sub :: rest =>
    match alarm_filter_decision sub.filter alarm.resource_id with
    | .error _ => ([], true)
    | .ok true =>
      let tail := deliver_go alarm event_type notification_id timestamp rest
      ((sub.callback_uri,
        build_alarm_notification_payload sub alarm event_type notification_id timestamp)
        :: tail.1, tail.2)
    | .ok false => deliver_go alarm event_type notification_id timestamp rest

/-- `NotificationManager._deliver_alarm_notification`: drop silently when the
alarm id is not in the store, otherwise run the subscription loop. -/
def deliver_alarm_notification (alarm : Option AlarmRow) (subs : List SubscriptionRow)
    (event_type notification_id timestamp : String) :
    List (String × AlarmNotificationPayload) × Bool :=
  match alarm with
  | none => ([], false)
  | some a => deliver_go a event_type notification_id timestamp subs

/-- The sending condition asserted by the claim, written from the claim for
comparison with the code: the filter has no resourceId field, or its
resourceId equals the resource id of the alarm. -/
def claim_alarm_filter_matches (f : PyFilter) (rid : String) : Bool :=
  match normalize_filter f with
  | some (.jobj fs) =>
    (match alist_lookup "resourceId" fs with
     | none => true
     | some j => py_eq j (some rid))
  | _ => true

/-- C9 (counterexample): the payload is delivered to a subscription whose
filter carries a resourceId field that differs from the resource of the
alarm — the empty string, which is falsy, so the code sends — while the
claim predicate excludes that subscription. -/
theorem deliver_alarm_notification_counterexample :
    deliver_alarm_notification
        (some ⟨"al-1", "node-1", "CRITICAL", "cause", "t0"⟩)
        [⟨"sub-1", "http://cb", .pyval (.jobj [("resourceId", .jstr "")])⟩]
        "alarm.raised" "n-1" "t1"
      = ([("http://cb",
           build_alarm_notification_payload
             ⟨"sub-1", "http://cb", .pyval (.jobj [("resourceId", .jstr "")])⟩
             ⟨"al-1", "node-1", "CRITICAL", "cause", "t0"⟩
             "alarm.raised" "n-1" "t1")], false)
    ∧ claim_alarm_filter_matches (.pyval (.jobj [("resourceId", .jstr "")])) "node-1"
      = false := by
  exact ⟨rfl, rfl⟩

/-- C9 (amended): when the alarm id is not found nothing is sent and no error
is raised; otherwise, provided every subscription filter normalizes to a
JSON object, the payload is sent exactly to the subscriptions whose filter
has a missing or falsy resourceId (both wildcards) or a resourceId equal to
the resource id of the alarm. -/
theorem deliver_alarm_notification_amended (a : AlarmRow)
    (subs : List SubscriptionRow) (event_type notification_id timestamp : String)
    (h : ∀ sub ∈ subs, ∃ fs, normalize_filter sub.filter = some (Json.jobj fs)) :
    deliver_alarm_notification none subs event_type notification_id timestamp = ([], false)
    ∧ deliver_alarm_notification (some a) subs event_type notification_id timestamp
      = ((subs.filter (fun sub =>
            match normalize_filter sub.filter with
            | some (Json.jobj fs) => dict_filter_sends fs a.resource_id
            | _ => false)).map
          (fun sub => (sub.callback_uri,
            build_alarm_notification_payload sub a event_type notification_id timestamp)),
         false) := by
  refine ⟨rfl, ?_⟩
  induction subs with
  | nil => rfl
  | cons sub rest ih =>
    rcases h sub (by simp) with ⟨fs, hfs⟩
    have hrest := ih (fun x hx => h x (List.mem_cons_of_mem _ hx))
    simp only [deliver_alarm_notification] at hrest
    have hr1 := congrArg Prod.fst hrest
    have hr2 := congrArg Prod.snd hrest
    dsimp at hr1 hr2
    have hdec : alarm_filter_decision sub.filter a.resource_id
        = .ok (dict_filter_sends fs a.resource_id) := by
      simp [alarm_filter_decision, hfs]
    cases hsend : dict_filter_sends fs a.resource_id
    · simp [deliver_alarm_notification, deliver_go, hdec, hsend, hfs, hr1, hr2,
        List.filter_cons]
      exact hrest
    · simp [deliver_alarm_notification, deliver_go, hdec, hsend, hfs, hr1, hr2,
        List.filter_cons]

/-- Closed instance of the amended C9: one wildcard subscriber, one matching
subscriber and one non-matching subscriber. -/
theorem deliver_alarm_notification_amended_witness :
    deliver_alarm_notification none
        [⟨"sub-1", "http://cb1", .pystr none⟩]
        "alarm.raised" "n-1" "t1" = ([], false)
    ∧ deliver_alarm_notification (some ⟨"al-1", "node-1", "CRITICAL", "cause", "t0"⟩)
        [⟨"sub-1", "http://cb1", .pystr none⟩,
         ⟨"sub-2", "http://cb2", .pyval (.jobj [("resourceId", .jstr "node-1")])⟩,
         ⟨"sub-3", "http://cb3", .pyval (.jobj [("resourceId", .jstr "node-2")])⟩]
        "alarm.raised" "n-1" "t1"
      = (([⟨"sub-1", "http://cb1", .pystr none⟩,
           ⟨"sub-2", "http://cb2", .pyval (.jobj [("resourceId", .jstr "node-1")])⟩,
           ⟨"sub-3", "http://cb3", .pyval (.jobj [("resourceId", .jstr "node-2")])⟩].filter
            (fun sub =>
              match normalize_filter sub.filter with
              | some (Json.jobj fs) => dict_filter_sends fs
                  (AlarmRow.mk "al-1" "node-1" "CRITICAL" "cause" "t0").resource_id
              | _ => false)).map
          (fun sub => (sub.callback_uri,
            build_alarm_notification_payload sub ⟨"al-1", "node-1", "CRITICAL", "cause", "t0"⟩
              "alarm.raised" "n-1" "t1")),
         false) := by
  have h := deliver_alarm_notification_amended
    ⟨"al-1", "node-1", "CRITICAL", "cause", "t0"⟩
    [⟨"sub-1", "http://cb1", .pystr none⟩,
     ⟨"sub-2", "http://cb2", .pyval (.jobj [("resourceId", .jstr "node-1")])⟩,
     ⟨"sub-3", "http://cb3", .pyval (.jobj [("resourceId", .jstr "node-2")])⟩]
    "alarm.raised" "n-1" "t1"
    (by
      intro sub hsub
      rcases List.mem_cons.mp hsub with rfl | hsub
      · exact ⟨[], rfl⟩
      rcases List.mem_cons.mp hsub with rfl | hsub
      · exact ⟨[("resourceId", .jstr "node-1")], rfl⟩
      rcases List.mem_cons.mp hsub with rfl | hsub
      · exact ⟨[("resourceId", .jstr "node-2")], rfl⟩
      · cases hsub)
  exact ⟨(deliver_alarm_notification_amended ⟨"al-1", "node-1", "CRITICAL", "cause", "t0"⟩
      [⟨"sub-1", "http://cb1", .pystr none⟩] "alarm.raised" "n-1" "t1"
      (by
        intro sub hsub
        rcases List.mem_cons.mp hsub with rfl | hsub
        · exact ⟨[], rfl⟩
        · cases hsub)).1, h.2⟩


/-! ### Performance report generator (`report_generator.py`) -/

/-- One row of the performance_data table. `value` is nullable; the
aggregation code drops null values. -/
structure PerfPoint where
  resource_id : String
  metric_id : String
  value : Option ℚ
  timestamp : Int
deriving DecidableEq, Repr

/-- Stable insertion into a timestamp-ascending list. -/
def ts_insert (p : PerfPoint) : List PerfPoint → List PerfPoint
  | [] => [p]
  | q :: rest =>
    if p.timestamp ≤ q.timestamp then p :: q :: rest else q :: ts_insert p rest

/-- `ORDER BY timestamp ASC` of the query. -/
def ts_sort : List PerfPoint → List PerfPoint
  | [] => []
  | p :: rest => ts_insert p (ts_sort rest)

theorem ts_insert_perm (p : PerfPoint) (l : List PerfPoint) :
    (ts_insert p l).Perm (p :: l) := by
  induction l with
  | nil => exact List.Perm.refl _
  | cons q rest ih =>
    by_cases h : p.timestamp ≤ q.timestamp
    · rw [ts_insert, if_pos h]
    · rw [ts_insert, if_neg h]
      exact (ih.cons q).trans (List.Perm.swap p q rest)

theorem ts_sort_perm (l : List PerfPoint) : (ts_sort l).Perm l := by
  induction l with
  | nil => exact List.Perm.refl _
  | cons p rest ih => exact (ts_insert_perm p (ts_sort rest)).trans (ih.cons p)

/-- `OCloudDB.get_performance_data_since`: rows of the resource and metric
with `timestamp >= since`, in ascending timestamp order. -/
def get_performance_data_since (store : List PerfPoint) (rid metric : String)
    (since : Int) : List PerfPoint :=
  ts_sort (store.filter (fun p =>
    decide (p.resource_id = rid) && decide (p.metric_id = metric)
      && decide (since ≤ p.timestamp)))

/-- `ReportGenerator._get_metric_data`: the non-null values of the trailing
collection window. -/
def get_metric_data (store : List PerfPoint) (rid metric : String)
    (collection_period now : Int) : List ℚ :=
  (get_performance_data_since store rid metric (now - collection_period)).filterMap
    (·.value)

theorem foldl_min_le_init (xs : List ℚ) (a : ℚ) : xs.foldl min a ≤ a := by
  induction xs generalizing a with
  | nil => exact le_refl a
  | cons x xs ih => exact le_trans (ih (min a x)) (min_le_left a x)

theorem foldl_min_le_mem (xs : List ℚ) (a : ℚ) : ∀ v ∈ xs, xs.foldl min a ≤ v := by
  induction xs generalizing a with
  | nil => intro v hv; cases hv
  | cons x xs ih =>
    intro v hv
    rcases List.mem_cons.mp hv with rfl | hv
    · exact le_trans (foldl_min_le_init xs (min a v)) (min_le_right a v)
    · exact ih (min a x) v hv

theorem foldl_min_mem (xs : List ℚ) (a : ℚ) :
    xs.foldl min a = a ∨ xs.foldl min a ∈ xs := by
  induction xs generalizing a with
  | nil => exact Or.inl rfl
  | cons x xs ih =>
    rcases ih (min a x) with h | h
    · rcases le_total a x with hax | hax
      · exact Or.inl (by rw [List.foldl_cons, h, min_eq_left hax])
      · exact Or.inr (by rw [List.foldl_cons, h, min_eq_right hax]; exact List.mem_cons_self x xs)
    · exact Or.inr (List.mem_cons_of_mem x h)

theorem foldl_max_init_le (xs : List ℚ) (a : ℚ) : a ≤ xs.foldl max a := by
  induction xs generalizing a with
  | nil => exact le_refl a
  | cons x xs ih => exact le_trans (le_max_left a x) (ih (max a x))

theorem foldl_max_mem_le (xs : List ℚ) (a : ℚ) : ∀ v ∈ xs, v ≤ xs.foldl max a := by
  induction xs generalizing a with
  | nil => intro v hv; cases hv
  | cons x xs ih =>
    intro v hv
    rcases List.mem_cons.mp hv with rfl | hv
    · exact le_trans (le_max_right a v) (foldl_max_init_le xs (max a v))
    · exact ih (max a x) v hv

theorem foldl_max_mem (xs : List ℚ) (a : ℚ) :
    xs.foldl max a = a ∨ xs.foldl max a ∈ xs := by
  induction xs generalizing a with
  | nil => exact Or.inl rfl
  | cons x xs ih =>
    rcases ih (max a x) with h | h
    · rcases le_total a x with hax | hax
      · exact Or.inr (by rw [List.foldl_cons, h, max_eq_right hax]; exact List.mem_cons_self x xs)
      · exact Or.inl (by rw [List.foldl_cons, h, max_eq_left hax])
    · exact Or.inr (List.mem_cons_of_mem x h)

/-- Python `min(values)` (only called on a non-empty list). -/
def list_min : List ℚ → ℚ
  | [] => 0
  | x :: xs => xs.foldl min x

/-- Python `max(values)` (only called on a non-empty list). -/
def list_max : List ℚ → ℚ
  | [] => 0
  | x :: xs => xs.foldl max x

theorem list_min_mem {l : List ℚ} (h : l ≠ []) : list_min l ∈ l := by
  match l with
  | x :: xs =>
    rcases foldl_min_mem xs x with h' | h'
    · rw [list_min, h']; exact List.mem_cons_self x xs
    · exact List.mem_cons_of_mem x h'

theorem list_min_le {l : List ℚ} : ∀ v ∈ l, list_min l ≤ v := by
  match l with
  | [] => intro v hv; cases hv
  | x :: xs =>
    intro v hv
    rcases List.mem_cons.mp hv with rfl | hv
    · exact foldl_min_le_init xs v
    · exact foldl_min_le_mem xs x v hv

theorem list_max_mem {l : List ℚ} (h : l ≠ []) : list_max l ∈ l := by
  match l with
  | x :: xs =>
    rcases foldl_max_mem xs x with h' | h'
    · rw [list_max, h']; exact List.mem_cons_self x xs
    · exact List.mem_cons_of_mem x h'

theorem list_max_le {l : List ℚ} : ∀ v ∈ l, v ≤ list_max l := by
  match l with
  | [] => intro v hv; cases hv
  | x :: xs =>
    intro v hv
    rcases List.mem_cons.mp hv with rfl | hv
    · exact foldl_max_init_le xs v
    · exact foldl_max_mem_le xs x v hv

/-- One aggregate entry of the report:
`{current, average, min, max, samples}`. -/
structure MetricAgg where
  current : ℚ
  average : ℚ
  min : ℚ
  max : ℚ
  samples : Nat
deriving DecidableEq, Repr

/-- The aggregate computed for a non-empty window value list:
`current = values[-1]`, `average = sum/len`, `min`, `max`, `samples = len`. -/
def mk_agg (vs : List ℚ) : MetricAgg :=
  { current := (vs.getLast?).getD 0,
    average := vs.sum / (vs.length : ℚ),
    min := list_min vs,
    max := list_max vs,
    samples := vs.length }

/-- The per-object metric dict of `_generate_and_deliver_report`: an entry per
configured metric with at least one sample in the window, none otherwise. -/
def metrics_for_object (store : List PerfPoint) (object_id : String)
    (metrics : List String) (collection_period now : Int) :
    List (String × MetricAgg) :=
  metrics.filterMap (fun m =>
    if get_metric_data store object_id m collection_period now = [] then none
    else some (m, mk_agg (get_metric_data store object_id m collection_period now)))

/-- A performance_jobs row after `get_performance_jobs` parsed its JSON
columns. The criteria dict is split into the three keys the generator
reads; `performanceMetric` may be a single string (wrapped to a one-element
list by the code) or a list. -/
structure PerformanceJob where
  job_id : String
  object_type : String
  object_instance_ids : List String
  criteria_reportingPeriod : Option Int
  criteria_collectionPeriod : Option Int
  criteria_performanceMetric : Option (Sum String (List String))
  callback_uri : Option String
  created_at : Int
  last_report_time : Option Int

/-- `ReportGenerator._should_generate_report`. -/
def should_generate_report (job : PerformanceJob) (now : Int) : Bool :=
  let reporting_period := job.criteria_reportingPeriod.getD 300
  match job.last_report_time with
  | none => decide (reporting_period ≤ now - job.created_at)
  | some t => decide (reporting_period ≤ now - t)

structure ObjectReport where
  objectType : String
  objectInstanceId : String
  performanceMetrics : List (String × MetricAgg)
deriving DecidableEq, Repr

structure ReportPayload where
  reportType : String
  jobId : String
  timestamp : Int
  reportingPeriod : Int
  collectionPeriod : Int
  data : List ObjectReport
deriving DecidableEq, Repr

/-- The `isinstance(performance_metrics, str)` wrap. -/
def job_metrics (job : PerformanceJob) : List String :=
  match job.criteria_performanceMetric with
  | none => []
  | some (.inl s) => [s]
  | some (.inr l) => l

/-- `ReportGenerator._generate_and_deliver_report`, with the HTTP outcome of
`_deliver_report` passed explicitly: builds the aggregates and payload and
updates `last_report_time` only on a delivered 200/201/202/204. -/
def generate_and_deliver_report (store : List PerfPoint) (job : PerformanceJob)
    (outcome : HttpOutcome) (now : Int) : PerformanceJob × Option ReportPayload :=
  let collection_period := job.criteria_collectionPeriod.getD 60
  let report_data := job.object_instance_ids.map (fun oid =>
    ObjectReport.mk job.object_type oid
      (metrics_for_object store oid (job_metrics job) collection_period now))
  let payload : ReportPayload :=
    ⟨"performanceReport", job.job_id, now, job.criteria_reportingPeriod.getD 300,
     collection_period, report_data⟩
  match job.callback_uri with
  | some _ =>
    if is_success outcome then
      ({ job with last_report_time := some now }, some payload)
    else (job, some payload)
  | none => (job, none)

/-- C7: a job is ready exactly when the time elapsed since its last report —
or since its creation when none was ever delivered — reaches the reporting
period; `last_report_time` advances only on a 200/201/202/204 delivery, so
after a failed delivery the job is unchanged and is due again on the next
cycle exactly as before the attempt. -/
theorem report_timing_semantics (job : PerformanceJob) (store : List PerfPoint)
    (outcome : HttpOutcome) (now later : Int) (u : String) :
    (should_generate_report job now = true ↔
       job.criteria_reportingPeriod.getD 300
         ≤ now - (job.last_report_time.getD job.created_at))
    ∧ (job.callback_uri = some u → is_success outcome = true →
        (generate_and_deliver_report store job outcome now).1.last_report_time = some now)
    ∧ (job.callback_uri = some u → is_success outcome = false →
        (generate_and_deliver_report store job outcome now).1 = job
        ∧ should_generate_report (generate_and_deliver_report store job outcome now).1 later
            = should_generate_report job later) := by
  refine ⟨?_, ?_, ?_⟩
  · cases h : job.last_report_time <;> simp [should_generate_report, h]
  · intro hcb hs
    simp [generate_and_deliver_report, hcb, hs]
  · intro hcb hs
    have hj : (generate_and_deliver_report store job outcome now).1 = job := by
      simp [generate_and_deliver_report, hcb, hs]
    exact ⟨hj, by rw [hj]⟩

/-- The job used to instantiate C7 and C8: reportingPeriod 300 seconds,
collectionPeriod 60 seconds, one monitored object, created at time 0,
never reported. -/
def sample_job : PerformanceJob :=
  ⟨"job-1", "Resource", ["node-1"], some 300, some 60, some (.inr ["cpu_usage"]),
   some "http://smo/reports", 0, none⟩

/-- Closed instance of C7: at 305s the never-reported job is due (305 ≥ 300);
a failed delivery (HTTP 500) leaves the job unchanged and equally due. -/
theorem report_timing_semantics_witness :
    (should_generate_report sample_job 305 = true ↔
       sample_job.criteria_reportingPeriod.getD 300
         ≤ 305 - (sample_job.last_report_time.getD sample_job.created_at))
    ∧ ((generate_and_deliver_report [] sample_job (.status 500) 305).1 = sample_job
       ∧ should_generate_report
           (generate_and_deliver_report [] sample_job (.status 500) 305).1 600
         = should_generate_report sample_job 600) :=
  ⟨(report_timing_semantics sample_job [] (.status 500) 305 600 "http://smo/reports").1,
   (report_timing_semantics sample_job [] (.status 500) 305 600 "http://smo/reports").2.2
     rfl rfl⟩

/-- C8: for each object and configured metric, the report carries an
aggregate entry exactly when the trailing collection window holds at least
one (non-null) sample; the entry counts the window samples, its current
field is the last window value, min and max are attained bounds of the
window values, and average times the sample count is their sum; a metric
with an empty window yields no entry at all. -/
theorem report_aggregation (store : List PerfPoint) (oid : String)
    (metrics : List String) (cp now : Int) (m : String) (hm : m ∈ metrics) :
    (get_metric_data store oid m cp now = [] →
       ∀ agg, (m, agg) ∉ metrics_for_object store oid metrics cp now)
    ∧ (∀ h : get_metric_data store oid m cp now ≠ [],
        (m, mk_agg (get_metric_data store oid m cp now))
            ∈ metrics_for_object store oid metrics cp now
        ∧ (mk_agg (get_metric_data store oid m cp now)).samples
            = (get_metric_data store oid m cp now).length
        ∧ (mk_agg (get_metric_data store oid m cp now)).current
            = (get_metric_data store oid m cp now).getLast h
        ∧ (mk_agg (get_metric_data store oid m cp now)).min
            ∈ get_metric_data store oid m cp now
        ∧ (∀ v ∈ get_metric_data store oid m cp now,
            (mk_agg (get_metric_data store oid m cp now)).min ≤ v)
        ∧ (mk_agg (get_metric_data store oid m cp now)).max
            ∈ get_metric_data store oid m cp now
        ∧ (∀ v ∈ get_metric_data store oid m cp now,
            v ≤ (mk_agg (get_metric_data store oid m cp now)).max)
        ∧ (mk_agg (get_metric_data store oid m cp now)).average
            * ((get_metric_data store oid m cp now).length : ℚ)
          = (get_metric_data store oid m cp now).sum)
    ∧ (∀ v : ℚ, v ∈ get_metric_data store oid m cp now ↔
        ∃ p, p ∈ store ∧ p.resource_id = oid ∧ p.metric_id = m
          ∧ now - cp ≤ p.timestamp ∧ p.value = some v) := by
  refine ⟨?_, ?_, ?_⟩
  · intro hvs agg hmem
    rcases List.mem_filterMap.mp hmem with ⟨m', hm', hf⟩
    by_cases he : get_metric_data store oid m' cp now = []
    · rw [if_pos he] at hf
      cases hf
    · rw [if_neg he] at hf
      injection hf with hf
      have hmm : m' = m := congrArg Prod.fst hf
      rw [hmm] at he
      exact he hvs
  · intro h
    refine ⟨List.mem_filterMap.mpr ⟨m, hm, by rw [if_neg h]⟩, rfl, ?_, list_min_mem h,
      list_min_le, list_max_mem h, list_max_le, ?_⟩
    · show ((get_metric_data store oid m cp now).getLast?).getD 0 = _
      rw [List.getLast?_eq_getLast _ h, Option.getD_some]
    · show (get_metric_data store oid m cp now).sum
          / ((get_metric_data store oid m cp now).length : ℚ) * _ = _
      have hlen : ((get_metric_data store oid m cp now).length : ℚ) ≠ 0 := by
        have := List.length_pos.mpr h
        exact_mod_cast Nat.pos_iff_ne_zero.mp this
      exact div_mul_cancel₀ _ hlen
  · intro v
    constructor
    · intro hv
      rcases List.mem_filterMap.mp hv with ⟨p, hp, hpv⟩
      have hp' := (ts_sort_perm _).mem_iff.mp hp
      rcases List.mem_filter.mp hp' with ⟨hps, hcond⟩
      simp only [Bool.and_eq_true, decide_eq_true_eq] at hcond
      exact ⟨p, hps, hcond.1.1, hcond.1.2, hcond.2, hpv⟩
    · rintro ⟨p, hps, h1, h2, h3, h4⟩
      refine List.mem_filterMap.mpr ⟨p, ?_, h4⟩
      refine (ts_sort_perm _).mem_iff.mpr (List.mem_filter.mpr ⟨hps, ?_⟩)
      simp [h1, h2, h3]

/-- The sample store used to instantiate C8: two cpu samples, one inside the
window with value 70 and one outside it, a null-valued sample inside the
window, and a sample of another metric. -/
def sample_store : List PerfPoint :=
  [⟨"node-1", "cpu_usage", some 50, 100⟩,
   ⟨"node-1", "cpu_usage", some 70, 160⟩,
   ⟨"node-1", "cpu_usage", none, 170⟩,
   ⟨"node-1", "memory_usage", some 10, 160⟩]

/-- Closed instance of C8 at `sample_store` with a 60s window ending at 200:
the single window value 70 yields the entry and is characterized by the
window predicate. -/
theorem report_aggregation_witness :
    ("cpu_usage", mk_agg (get_metric_data sample_store "node-1" "cpu_usage" 60 200))
        ∈ metrics_for_object sample_store "node-1" ["cpu_usage"] 60 200
    ∧ ((70:ℚ) ∈ get_metric_data sample_store "node-1" "cpu_usage" 60 200 ↔
        ∃ p, p ∈ sample_store ∧ p.resource_id = "node-1" ∧ p.metric_id = "cpu_usage"
          ∧ (200:Int) - 60 ≤ p.timestamp ∧ p.value = some 70) := by
  have h := report_aggregation sample_store "node-1" ["cpu_usage"] 60 200 "cpu_usage"
    (by simp)
  exact ⟨(h.2.1 (by decide)).1, h.2.2 70⟩


end O2
